import Mathlib

/-
Shallow embedding of medallion/views/objects.py (TAXII 2.0 "Objects" views).

External collaborators (the storage backend, Flask request/app globals,
the Accept-header validators imported from sibling modules) are modelled
as explicit inputs: each handler receives the values those collaborators
would produce for the request being handled.  Machine integers are Int
(Python ints are unbounded).  Raised exceptions are modelled with Except:
ProcessingError for the application error type, and a separate typeError
constructor for the Python TypeError produced by subscripting None.
-/

deriving instance DecidableEq for Except

/-- Opaque STIX object payload; the views only ever measure list length. -/
abbrev StixObject := String

/-- medallion's ProcessingError: message, HTTP status, extra response headers
(the source attaches headers only on the 416 path; elsewhere they are empty).
The optional wrapped cause is not modelled.  Messages follow the source
format strings, except that the source quotes interpolated ids with
single quotes, omitted here. -/
structure ProcessingError where
  message : String
  status : Int
  headers : List (String × String)
  deriving DecidableEq, Repr

/-- An exception escaping a view helper: either a raised ProcessingError, or
the Python TypeError from subscripting a missing (None) collection record. -/
inductive RaisedError where
  | processing : ProcessingError → RaisedError
  | typeError : RaisedError
  deriving DecidableEq, Repr

/-- Raise a ProcessingError with no extra headers. -/
def procErr (message : String) (status : Int) : RaisedError :=
  RaisedError.processing (ProcessingError.mk message status [])

/-- Collection record returned by backend.get_collection: the two capability
flags the views subscript. -/
structure CollectionInfo where
  can_read : Bool
  can_write : Bool
  deriving DecidableEq, Repr

/-- Manifest entry as consumed by get_custom_headers: only date_added is
read.  Timestamps are modelled by Nat; Python sorts the timestamp strings,
and only their total order matters here. -/
structure ManifestEntry where
  objId : String
  date_added : Nat
  deriving DecidableEq, Repr

/-- The dict returned as second component of backend.get_objects /
backend.get_object; the views read its objects field and test its
truthiness (modelled by Option at the call sites). -/
structure ObjectsEnvelope where
  objects : List StixObject
  deriving DecidableEq, Repr

/-- A Flask Response as far as the claims observe it: status and headers. -/
structure ResponseData where
  status : Int
  headers : List (String × String)
  deriving DecidableEq, Repr

/-- HTTP request methods that can reach this blueprint. -/
inductive Method where
  | GET
  | POST
  | DELETE
  | PUT
  deriving DecidableEq, Repr

/- ---------- string machinery (Python str/re/int primitives) ---------- -/

/-- Python str.split(sep) for a one-character separator: "".split(sep)
is [""], and separators delimit (possibly empty) fields. -/
def splitOnChar (sep : Char) : List Char → List (List Char)
  | [] => [[]]
  | c :: rest =>
    match splitOnChar sep rest with
    | [] => [[c]]
    | t :: ts => if c = sep then [] :: t :: ts else (c :: t) :: ts

/-- If the first list is a prefix of the second, return the remainder. -/
def dropPre : List Char → List Char → Option (List Char)
  | [], s => some s
  | _ :: _, [] => none
  | p :: ps, c :: cs => if p = c then dropPre ps cs else none

/-- Value of a string of decimal digits (Python int() on a digit string). -/
def digitsToNat (l : List Char) : Nat :=
  l.foldl (fun acc c => acc * 10 + (c.toNat - Char.toNat '0')) 0

/-- ASCII whitespace stripped by Python int(str). -/
def isPySpace (c : Char) : Bool :=
  c = ' ' ∨ c = '\t' ∨ c = '\n' ∨ c = '\r' ∨ c = '\x0b' ∨ c = '\x0c'

/-- Python str.strip() (whitespace at both ends). -/
def stripChars (l : List Char) : List Char :=
  ((l.dropWhile isPySpace).reverse.dropWhile isPySpace).reverse

/-- Python int(s): optional surrounding whitespace, optional sign, at least
one decimal digit; none when int() would raise ValueError.  (Python also
accepts underscores between digits; not modelled.) -/
def pyInt? (s : String) : Option Int :=
  match stripChars s.toList with
  | '-' :: ds =>
    if ds ≠ [] ∧ ds.all Char.isDigit then some (-(digitsToNat ds : Int)) else none
  | '+' :: ds =>
    if ds ≠ [] ∧ ds.all Char.isDigit then some ((digitsToNat ds : Int)) else none
  | ds =>
    if ds ≠ [] ∧ ds.all Char.isDigit then some ((digitsToNat ds : Int)) else none

/-- Python str(x) for the Optional version group of the content-type regex:
str(None) is "None". -/
def pyStr : Option (List Char) → String
  | none => "None"
  | some l => String.mk l

/- ---------- access control guard (objects.py lines 18-33, 53-60) ---------- -/

/-- objects.py permission_to_read.  The backend get_collection result is the
collection argument; on None the subscript collection_info["can_read"]
raises TypeError before the 403 branch can run. -/
def permission_to_read (collection_id : String) (collection : Option CollectionInfo) :
    Except RaisedError Unit :=
  match collection with
  | none => Except.error RaisedError.typeError
  | some collection_info =>
    if collection_info.can_read = false then
      Except.error (procErr ("Forbidden to read collection " ++ collection_id) 403)
    else Except.ok ()

/-- objects.py permission_to_write (same shape with can_write). -/
def permission_to_write (collection_id : String) (collection : Option CollectionInfo) :
    Except RaisedError Unit :=
  match collection with
  | none => Except.error RaisedError.typeError
  | some collection_info =>
    if collection_info.can_write = false then
      Except.error (procErr ("Forbidden to write collection " ++ collection_id) 403)
    else Except.ok ()

/-- objects.py collection_exists: a falsy (absent) get_collection result
raises 404; any collection record is a nonempty dict, hence truthy. -/
def collection_exists (collection_id : String) (collection : Option CollectionInfo) :
    Except RaisedError Unit :=
  match collection with
  | none => Except.error (procErr ("Collection " ++ collection_id ++ " not found") 404)
  | some _ => Except.ok ()

/-- objects.py permission_to_read_and_write: joint both-false check (404)
first, then the can_write check (403), then the can_read check (403). -/
def permission_to_read_and_write (collection_id : String) (collection : Option CollectionInfo) :
    Except RaisedError Unit :=
  match collection with
  | none => Except.error RaisedError.typeError
  | some collection_info =>
    if collection_info.can_read = false ∧ collection_info.can_write = false then
      Except.error (procErr ("Collection " ++ collection_id ++ " not found") 404)
    else if collection_info.can_write = false then
      Except.error (procErr ("Forbidden to write collection " ++ collection_id) 403)
    else if collection_info.can_read = false then
      Except.error (procErr ("Forbidden to read collection " ++ collection_id) 403)
    else Except.ok ()

/- ---------- content negotiation (objects.py lines 35-50) ---------- -/

/-- Python re.match of a token against
the anchored pattern application/vnd\.oasis\.stix\+json(;version=(\d\.\d))?
- none: no match; some none: bare media type (version group unmatched);
some (some v): matched with version text v (one digit, dot, one digit). -/
def stixContentTypeMatch (item : List Char) : Option (Option (List Char)) :=
  match dropPre "application/vnd.oasis.stix+json".toList item with
  | none => none
  | some rest =>
    match rest with
    | [] => some none
    | _ =>
      match dropPre ";version=".toList rest with
      | none => none
      | some ver =>
        match ver with
        | [a, b, c] =>
          if a.isDigit ∧ b = '.' ∧ c.isDigit then some (some ver) else none
        | _ => none

/-- The for-loop of validate_version_parameter_in_content_type_header: scan
tokens for the first regex match; on a match, the guard
len(result.groups()) >= 2 always holds (groups() has the pattern's group
count, 2, regardless of what matched), so group(2) — None when the version
parameter is absent — is compared against "2.0" and any other value raises
415; after a match the loop breaks with found = True.  If no token matched,
raise 415 invalid-or-not-found. -/
def find_stix_token : List (List Char) → Except RaisedError Unit
  | [] =>
    Except.error (procErr "Media type in the Content-Type header is invalid or not found" 415)
  | item :: rest =>
    match stixContentTypeMatch item with
    | none => find_stix_token rest
    | some version_str =>
      if version_str ≠ some "2.0".toList then
        Except.error
          (procErr ("The server does not support version " ++ pyStr version_str) 415)
      else Except.ok ()

/-- objects.py validate_version_parameter_in_content_type_header: take the
Content-Type header value ("" when absent), delete every space, split on
commas, and scan the tokens. -/
def validate_version_parameter_in_content_type_header (contentTypeHeader : String) :
    Except RaisedError Unit :=
  find_stix_token (splitOnChar ',' (contentTypeHeader.toList.filter (fun c => ¬(c = ' '))))

/- ---------- body size validation (objects.py lines 63-72) ---------- -/

/-- objects.py validate_size_in_request_body.  The api-root's configured
max_content_length (fetched via backend.get_api_root_information) is the
first argument; the Content-Length header value, "" when absent, feeds
Python int(), whose ValueError becomes a 400. -/
def validate_size_in_request_body (maxContentLength : Int) (contentLengthHeader : Option String) :
    Except RaisedError Unit :=
  match pyInt? (contentLengthHeader.getD "") with
  | none => Except.error (procErr "The server did not understand the request or headers" 400)
  | some content_length =>
    if content_length > maxContentLength ∨ content_length ≤ 0 then
      Except.error (procErr "Content-Length header not valid or exceeds maximum!" 413)
    else Except.ok ()

/- ---------- range pagination engine (objects.py lines 74-102, 120-147) ---------- -/

/-- Python re.match of a Range header value against the anchored pattern
items[= ](\d+)-(\d+): "items", one separator ('=' or ' '), digits, a dash,
digits.  Returns the two matched integers. -/
def rangeHeaderMatch (s : String) : Option (Int × Int) :=
  match s.toList with
  | 'i' :: 't' :: 'e' :: 'm' :: 's' :: sep :: rest =>
    if sep = '=' ∨ sep = ' ' then
      match splitOnChar '-' rest with
      | [a, b] =>
        if a ≠ [] ∧ b ≠ [] ∧ a.all Char.isDigit ∧ b.all Char.isDigit then
          some ((digitsToNat a : Int), (digitsToNat b : Int))
        else none
      | _ => none
    else none
  | _ => none

/-- objects.py get_range_request_from_headers.  Absent header: first page of
max_page_size items.  Present: regex match (a failed match raises
AttributeError on .group, caught and re-raised as 400); a span larger than
max_page_size silently truncates end_index. -/
def get_range_request_from_headers (rangeHeader : Option String) (maxPageSize : Int) :
    Except RaisedError (Int × Int) :=
  match rangeHeader with
  | none => Except.ok (0, maxPageSize - 1)
  | some s =>
    match rangeHeaderMatch s with
    | none => Except.error (procErr "Bad Range header supplied" 400)
    | some (start_index, end_index) =>
      if end_index - start_index + 1 > maxPageSize then
        Except.ok (start_index, start_index + (maxPageSize - 1))
      else
        Except.ok (start_index, end_index)

/-- objects.py validate_limit_parameter.  The limit query parameter defaults
to the integer max_page_size itself; a string value goes through int()
(ValueError becomes 400); nonpositive values are 400; oversized values are
clamped to max_page_size. -/
def validate_limit_parameter (limitParam : Option String) (maxPageSize : Int) :
    Except RaisedError Int := do
  let limit ← match limitParam with
    | none => Except.ok maxPageSize
    | some s =>
      match pyInt? s with
      | some n => Except.ok n
      | none =>
        Except.error
          (procErr "The server did not understand the request or filter parameters" 400)
  if limit ≤ 0 then
    Except.error (procErr "The limit parameter cannot be negative or zero" 400)
  else if limit > maxPageSize then
    Except.ok maxPageSize
  else
    Except.ok limit

/- ---------- response headers (objects.py lines 105-147) ---------- -/

/-- Python dict assignment headers[k] = v on an insertion-ordered dict
modelled as an association list with distinct keys: replace the existing
binding in place, else append at the end. -/
def setHeader : List (String × String) → String → String → List (String × String)
  | [], k, v => [(k, v)]
  | p :: t, k, v => if p.1 = k then (k, v) :: t else p :: setHeader t k v

/-- Lookup of a header value. -/
def getHeader (headers : List (String × String)) (k : String) : Option String :=
  (headers.find? (fun p => p.1 = k)).map (fun p => p.2)

/-- The body of the len(times) > 0 block of get_custom_headers: given the
sorted timestamps, set the First header to times[0] and the Last header to
times[-1]; with no timestamps, leave the headers alone. -/
def addTimeHeaders (headers : List (String × String)) : List Nat → List (String × String)
  | [] => headers
  | t0 :: rest =>
    setHeader
      (setHeader headers "X-TAXII-Date-Added-First" (toString t0))
      "X-TAXII-Date-Added-Last"
      (toString ((t0 :: rest).getLast (List.cons_ne_nil t0 rest)))

/-- objects.py get_custom_headers.  The manifest argument is the second
component of backend.get_object_manifest for the same collection and range;
a falsy (empty) manifest adds nothing.  The try/except wrapping backend
failures into a 400 is not modelled: the backend result is a given value
here, and the pure computation cannot raise. -/
def get_custom_headers (headers : List (String × String)) (manifest : List ManifestEntry) :
    List (String × String) :=
  match manifest with
  | [] => headers
  | m :: ms =>
    addTimeHeaders headers
      (List.insertionSort (fun a b => a ≤ b) ((m :: ms).map ManifestEntry.date_added))

/-- objects.py get_response_status_and_headers.  rangeHeader is
request.headers.get("Range"), maxPageSize the configured max_page_size.
First the 416 guard (start_index >= total_count > 0), then full 200
response when no Range header was sent and the whole result fits, else a
206 with a Content-Range whose end index is start_index plus
len(objects) - 1 (or start_index when no objects came back). -/
def get_response_status_and_headers (rangeHeader : Option String) (maxPageSize : Int)
    (start_index total_count : Int) (objects : List StixObject) :
    Except RaisedError (Int × List (String × String)) :=
  if start_index ≥ total_count ∧ total_count > 0 then
    Except.error (RaisedError.processing
      (ProcessingError.mk "The requested range is outside the size of the result set" 416
        [("Accept-Ranges", "items"),
         ("Content-Range", "items */" ++ toString total_count)]))
  else if rangeHeader = none ∧ total_count < maxPageSize then
    Except.ok (200, [("Accept-Ranges", "items")])
  else
    Except.ok (206,
      [("Accept-Ranges", "items"),
       ("Content-Range",
        "items " ++ toString start_index ++ "-"
          ++ toString (if objects.length = 0 then start_index
                       else start_index + ((objects.length : Int) - 1))
          ++ "/" ++ toString total_count)])

/- ---------- endpoint orchestrators (objects.py lines 150-252) ---------- -/

/-- Everything a list-endpoint request consults, with backend collaborator
results supplied as values (functions of the indices they are queried
with).  The two Accept-header validators live in sibling modules; their
outcome for this request is passed in. -/
structure ListRequestEnv where
  stixAcceptCheck : Except RaisedError Unit
  taxiiAcceptCheck : Except RaisedError Unit
  apiRootCheck : Except RaisedError Unit
  collectionId : String
  collection : Option CollectionInfo
  contentTypeHeader : String
  contentLengthHeader : Option String
  maxContentLength : Int
  rangeHeader : Option String
  maxPageSize : Int
  getObjectsResult : Int → Int → Int × Option ObjectsEnvelope
  manifestResult : Int → Int → List ManifestEntry

/-- Outcome of one execution of the get_or_add_objects view body: the
response returned (none models Python returning None), and whether the
trailing nested definition and route registration of get_or_delete_object
was executed. -/
structure ListResult where
  response : Option ResponseData
  registeredSingleObject : Bool
  deriving DecidableEq, Repr

/-- The GET branch of get_or_add_objects (objects.py lines 171-189). -/
def list_get_handler (env : ListRequestEnv) : Except RaisedError ResponseData := do
  env.stixAcceptCheck
  env.apiRootCheck
  collection_exists env.collectionId env.collection
  permission_to_read env.collectionId env.collection
  let (start_index, end_index) ← get_range_request_from_headers env.rangeHeader env.maxPageSize
  let (total_count, objects) := env.getObjectsResult start_index end_index
  match objects with
  | some envl => do
    let (status, headers) ←
      get_response_status_and_headers env.rangeHeader env.maxPageSize start_index total_count
        envl.objects
    let headers2 := get_custom_headers headers (env.manifestResult start_index end_index)
    Except.ok (ResponseData.mk status headers2)
  | none =>
    Except.error
      (procErr ("Collection " ++ env.collectionId ++ " has no objects available") 404)

/-- The POST branch of get_or_add_objects (objects.py lines 190-203). -/
def list_post_handler (env : ListRequestEnv) : Except RaisedError ResponseData := do
  env.taxiiAcceptCheck
  validate_version_parameter_in_content_type_header env.contentTypeHeader
  env.apiRootCheck
  collection_exists env.collectionId env.collection
  permission_to_write env.collectionId env.collection
  validate_size_in_request_body env.maxContentLength env.contentLengthHeader
  Except.ok (ResponseData.mk 202 [])

/-- objects.py get_or_add_objects: the GET branch always returns or raises,
the POST branch always returns, and only when the method is neither does
control fall through to the nested definition that would register the
single-object route (modelled by registeredSingleObject = true, with the
view returning None). -/
def get_or_add_objects (m : Method) (env : ListRequestEnv) : Except RaisedError ListResult :=
  match m with
  | Method.GET => (list_get_handler env).map (fun resp => ListResult.mk (some resp) false)
  | Method.POST => (list_post_handler env).map (fun resp => ListResult.mk (some resp) false)
  | _ => Except.ok (ListResult.mk none true)

/-- The methods in the route decorator on get_or_add_objects. -/
def listRouteMethods : List Method := [Method.GET, Method.POST]

/-- Flask dispatch to the list route: a request with a method outside the
decorator's list never reaches the view (none; Flask answers 405). -/
def dispatch_objects_list (m : Method) (env : ListRequestEnv) :
    Option (Except RaisedError ListResult) :=
  if m ∈ listRouteMethods then some (get_or_add_objects m env) else none

/-- Whether an execution of the list view reached the nested route
registration. -/
def reachedRegistration : Except RaisedError ListResult → Bool
  | Except.ok r => r.registeredSingleObject
  | Except.error _ => false

/-- Everything a single-object request consults; backend.get_object's
result is a function of the computed limit. -/
structure SingleRequestEnv where
  collectionId : String
  objectId : String
  collection : Option CollectionInfo
  limitParam : Option String
  maxPageSize : Int
  getObjectResult : Int → Option ObjectsEnvelope × List (String × String)
  argsNonempty : Bool

/-- The GET branch of get_or_delete_object (objects.py lines 230-243): note
that the api_root_exists and collection_exists calls are commented out in
the source, so permission_to_read is the first thing that runs. -/
def single_get_handler (env : SingleRequestEnv) : Except RaisedError ResponseData := do
  permission_to_read env.collectionId env.collection
  let limit ← validate_limit_parameter env.limitParam env.maxPageSize
  let (objects, headers) := env.getObjectResult limit
  if objects.isSome ∨ env.argsNonempty then
    Except.ok (ResponseData.mk 200 headers)
  else
    Except.error (procErr ("Object " ++ env.objectId ++ " not found") 404)

/-- objects.py get_or_delete_object: GET branch above; DELETE calls the
backend (its permission check is commented out) and returns 200; any other
method falls through returning None. -/
def get_or_delete_object (m : Method) (env : SingleRequestEnv) :
    Except RaisedError (Option ResponseData) :=
  match m with
  | Method.GET => (single_get_handler env).map some
  | Method.DELETE => Except.ok (some (ResponseData.mk 200 []))
  | _ => Except.ok none

/-- A concrete environment for a well-formed POST to the list endpoint. -/
def sampleListEnv : ListRequestEnv :=
  ListRequestEnv.mk (Except.ok ()) (Except.ok ()) (Except.ok ()) "c1"
    (some (CollectionInfo.mk true true)) "application/vnd.oasis.stix+json;version=2.0"
    (some "10") 100 none 100 (fun _ _ => (0, none)) (fun _ _ => [])

/-- A concrete single-object environment whose collection does not exist. -/
def sampleSingleEnv : SingleRequestEnv :=
  SingleRequestEnv.mk "c1" "o1" none none 100 (fun _ => (none, [])) false


/- ---------- helper lemmas ---------- -/

theorem getHeader_setHeader_self (headers : List (String × String)) (k v : String) :
    getHeader (setHeader headers k v) k = some v := by
  induction headers with
  | nil => simp [setHeader, getHeader]
  | cons p t ih =>
    unfold setHeader
    by_cases hp : p.1 = k
    · rw [if_pos hp]
      simp [getHeader]
    · rw [if_neg hp]
      unfold getHeader at ih ⊢
      rw [List.find?_cons_of_neg _ (by simpa using hp)]
      exact ih

theorem getHeader_setHeader_ne (headers : List (String × String)) (k k2 v : String)
    (hne : k ≠ k2) : getHeader (setHeader headers k2 v) k = getHeader headers k := by
  induction headers with
  | nil =>
    simp [setHeader, getHeader, List.find?_cons_of_neg, hne]
    intro h
    exact absurd h.symm hne
  | cons p t ih =>
    unfold setHeader
    by_cases hp : p.1 = k2
    · rw [if_pos hp]
      unfold getHeader
      rw [List.find?_cons_of_neg _ (by simpa using fun h => hne h.symm),
        List.find?_cons_of_neg _ (by simpa [hp] using fun h => hne h.symm)]
    · rw [if_neg hp]
      unfold getHeader at ih ⊢
      by_cases hpk : p.1 = k
      · rw [List.find?_cons_of_pos _ (by simpa using hpk),
          List.find?_cons_of_pos _ (by simpa using hpk)]
      · rw [List.find?_cons_of_neg _ (by simpa using hpk),
          List.find?_cons_of_neg _ (by simpa using hpk)]
        exact ih

/-- In a list sorted by ≤, every member is bounded by the last element. -/
theorem sorted_le_getLast (l : List Nat) :
    l.Sorted (fun a b => a ≤ b) → ∀ x ∈ l, ∀ hne : l ≠ [], x ≤ l.getLast hne := by
  induction l with
  | nil =>
    intro _ x hx hne
    exact absurd hx (List.not_mem_nil x)
  | cons a t ih =>
    intro hs x hx hne
    cases t with
    | nil =>
      have hxa : x = a := by simpa using hx
      subst hxa
      simp [List.getLast]
    | cons b t2 =>
      rw [List.getLast_cons (List.cons_ne_nil b t2)]
      rcases List.mem_cons.mp hx with rfl | hx2
      · exact (List.sorted_cons.mp hs).1 _ (List.getLast_mem (List.cons_ne_nil b t2))
      · exact ih (List.sorted_cons.mp hs).2 x hx2 (List.cons_ne_nil b t2)

/- ---------- claim theorems ---------- -/

/-- C1: evaluation of the Content-Type version check at the inputs the claim
names.  The claim says a bare application/vnd.oasis.stix+json token with no
version parameter is accepted; in the code the guard
len(result.groups()) >= 2 always holds, so the unmatched version group
(None) is compared against "2.0" and the bare token is rejected with 415
("The server does not support version None").  Tokens with version 2.1 are
rejected with 415 and tokens with version 2.0 are accepted, as claimed. -/
theorem claim_C1_content_type_version_eval :
    validate_version_parameter_in_content_type_header "application/vnd.oasis.stix+json"
      = Except.error (procErr "The server does not support version None" 415)
    ∧ validate_version_parameter_in_content_type_header
        "application/vnd.oasis.stix+json;version=2.1"
      = Except.error (procErr "The server does not support version 2.1" 415)
    ∧ validate_version_parameter_in_content_type_header
        "application/vnd.oasis.stix+json;version=2.0"
      = Except.ok () :=
  ⟨by decide, by decide, by decide⟩

/-- C3 counterexample: the Range header "items=5-3" matches the regex, is
accepted without error (the clamp only fires when the span exceeds the page
size, and 3 - 5 + 1 = -1 does not), and the returned pair violates the
claimed invariant end_index ≥ start_index. -/
theorem claim_C3_counterexample :
    get_range_request_from_headers (some "items=5-3") 100 = Except.ok (5, 3)
    ∧ ¬((3 : Int) ≥ 5) :=
  ⟨by decide, by decide⟩

/-- C3 amended: provided max_page_size ≥ 1 (needed for the header-absent
default) and, for a present header, that the matched end is at least the
matched start, every accepted result (s, e) satisfies s ≤ e and
e - s + 1 ≤ max_page_size. -/
theorem claim_C3_range_invariant_amended (maxPageSize : Int) (hmax : 1 ≤ maxPageSize) :
    (∃ s e, get_range_request_from_headers none maxPageSize = Except.ok (s, e)
      ∧ s ≤ e ∧ e - s + 1 ≤ maxPageSize)
    ∧ ∀ (str : String) (a b : Int), rangeHeaderMatch str = some (a, b) → a ≤ b →
        ∃ s e, get_range_request_from_headers (some str) maxPageSize = Except.ok (s, e)
          ∧ s ≤ e ∧ e - s + 1 ≤ maxPageSize := by
  constructor
  · exact ⟨0, maxPageSize - 1, rfl, by omega, by omega⟩
  · intro str a b hm hab
    simp only [get_range_request_from_headers, hm]
    by_cases hspan : b - a + 1 > maxPageSize
    · rw [if_pos hspan]
      exact ⟨a, a + (maxPageSize - 1), rfl, by omega, by omega⟩
    · rw [if_neg hspan]
      exact ⟨a, b, rfl, hab, by omega⟩

/-- C3 witness: the amended theorem applied at max_page_size 3 and header
"items=5-9". -/
theorem claim_C3_range_invariant_amended_witness :
    ∃ s e, get_range_request_from_headers (some "items=5-9") 3 = Except.ok (s, e)
      ∧ s ≤ e ∧ e - s + 1 ≤ 3 :=
  (claim_C3_range_invariant_amended 3 (by decide)).2 "items=5-9" 5 9 (by decide) (by decide)

/-- C7: range-header parsing.  Absent header gives (0, max_page_size - 1);
a present header that fails the regex raises 400; a matching header whose
span exceeds max_page_size is silently clamped to
(start, start + max_page_size - 1); a matching header within the page size
is returned verbatim; and "items=5-9" under max_page_size 3 gives (5, 7). -/
theorem claim_C7_range_parsing :
    (∀ maxPageSize : Int,
      get_range_request_from_headers none maxPageSize = Except.ok (0, maxPageSize - 1))
    ∧ (∀ (s : String) (maxPageSize : Int), rangeHeaderMatch s = none →
      get_range_request_from_headers (some s) maxPageSize
        = Except.error (procErr "Bad Range header supplied" 400))
    ∧ (∀ (s : String) (a b maxPageSize : Int), rangeHeaderMatch s = some (a, b) →
      b - a + 1 > maxPageSize →
      get_range_request_from_headers (some s) maxPageSize
        = Except.ok (a, a + (maxPageSize - 1)))
    ∧ (∀ (s : String) (a b maxPageSize : Int), rangeHeaderMatch s = some (a, b) →
      ¬(b - a + 1 > maxPageSize) →
      get_range_request_from_headers (some s) maxPageSize = Except.ok (a, b))
    ∧ get_range_request_from_headers (some "items=5-9") 3 = Except.ok (5, 7) := by
  refine ⟨fun _ => rfl, ?_, ?_, ?_, by decide⟩
  · intro s mp hm
    simp only [get_range_request_from_headers, hm]
  · intro s a b mp hm hs
    simp only [get_range_request_from_headers, hm]
    rw [if_pos hs]
  · intro s a b mp hm hs
    simp only [get_range_request_from_headers, hm]
    rw [if_neg hs]

/-- C7 witness: each case of the parsing theorem at a concrete input. -/
theorem claim_C7_range_parsing_witness :
    get_range_request_from_headers none 100 = Except.ok (0, 99)
    ∧ get_range_request_from_headers (some "garbage") 100
      = Except.error (procErr "Bad Range header supplied" 400)
    ∧ get_range_request_from_headers (some "items=5-9") 3 = Except.ok (5, 7)
    ∧ get_range_request_from_headers (some "items=5-9") 100 = Except.ok (5, 9) := by
  refine ⟨?_, ?_, ?_, ?_⟩
  · exact (claim_C7_range_parsing.1 100).trans (by decide)
  · exact claim_C7_range_parsing.2.1 "garbage" 100 (by decide)
  · exact claim_C7_range_parsing.2.2.1 "items=5-9" 5 9 3 (by decide) (by decide)
  · exact claim_C7_range_parsing.2.2.2.1 "items=5-9" 5 9 100 (by decide) (by decide)

/-- C4: for calls outside the 416 branch (start_index < total_count or
total_count = 0), the response is 200 with exactly the Accept-Ranges
header when no Range header was sent and total_count < max_page_size, and
otherwise 206 with a Content-Range running from start_index to
start_index + returned_count - 1 (start_index itself when no objects were
returned); so identical indices can yield 200 or 206 depending only on
whether the client sent a Range header. -/
theorem claim_C4_paging_status (rangeHeader : Option String)
    (maxPageSize start_index total_count : Int) (objects : List StixObject)
    (hpre : start_index < total_count ∨ total_count = 0) :
    (rangeHeader = none ∧ total_count < maxPageSize →
      get_response_status_and_headers rangeHeader maxPageSize start_index total_count objects
        = Except.ok (200, [("Accept-Ranges", "items")]))
    ∧ (rangeHeader ≠ none ∨ total_count ≥ maxPageSize →
      get_response_status_and_headers rangeHeader maxPageSize start_index total_count objects
        = Except.ok (206,
            [("Accept-Ranges", "items"),
             ("Content-Range",
              "items " ++ toString start_index ++ "-"
                ++ toString (if objects.length = 0 then start_index
                             else start_index + ((objects.length : Int) - 1))
                ++ "/" ++ toString total_count)])) := by
  have h416 : ¬(start_index ≥ total_count ∧ total_count > 0) := by
    rintro ⟨h1, h2⟩
    rcases hpre with h | h <;> omega
  constructor
  · intro hfull
    unfold get_response_status_and_headers
    rw [if_neg h416, if_pos hfull]
  · intro hpart
    unfold get_response_status_and_headers
    rw [if_neg h416, if_neg (by
      rintro ⟨h1, h2⟩
      cases hpart with
      | inl h => exact h h1
      | inr h => omega)]

/-- C4 witness: same indices and objects, differing only in the presence of
a Range header, receive 200 and 206 respectively. -/
theorem claim_C4_paging_status_witness :
    get_response_status_and_headers none 100 0 2 ["a", "b"]
      = Except.ok (200, [("Accept-Ranges", "items")])
    ∧ get_response_status_and_headers (some "items=0-1") 100 0 2 ["a", "b"]
      = Except.ok (206,
          [("Accept-Ranges", "items"), ("Content-Range", "items 0-1/2")]) := by
  constructor
  · exact (claim_C4_paging_status none 100 0 2 ["a", "b"]
      (Or.inl (by decide))).1 ⟨rfl, by decide⟩
  · exact ((claim_C4_paging_status (some "items=0-1") 100 0 2 ["a", "b"]
      (Or.inl (by decide))).2 (Or.inl (by decide))).trans (by decide)

/-- C5: get_response_status_and_headers raises iff start_index ≥ total_count
and total_count > 0, the raised error is a 416 carrying exactly the
Accept-Ranges and Content-Range items-star headers, and on all other
inputs the function returns normally. -/
theorem claim_C5_unsatisfiable_range (rangeHeader : Option String)
    (maxPageSize start_index total_count : Int) (objects : List StixObject) :
    (start_index ≥ total_count ∧ total_count > 0 →
      get_response_status_and_headers rangeHeader maxPageSize start_index total_count objects
        = Except.error (RaisedError.processing
            (ProcessingError.mk "The requested range is outside the size of the result set" 416
              [("Accept-Ranges", "items"),
               ("Content-Range", "items */" ++ toString total_count)])))
    ∧ (¬(start_index ≥ total_count ∧ total_count > 0) →
      ∃ status headers,
        get_response_status_and_headers rangeHeader maxPageSize start_index total_count objects
          = Except.ok (status, headers)) := by
  constructor
  · intro h
    unfold get_response_status_and_headers
    rw [if_pos h]
  · intro h
    unfold get_response_status_and_headers
    rw [if_neg h]
    by_cases h2 : rangeHeader = none ∧ total_count < maxPageSize
    · rw [if_pos h2]
      exact ⟨200, _, rfl⟩
    · rw [if_neg h2]
      exact ⟨206, _, rfl⟩

/-- C5 witness: the 416 branch at start 7 of 5 totals, and a normal return
at start 0 of 5 totals. -/
theorem claim_C5_unsatisfiable_range_witness :
    get_response_status_and_headers none 100 7 5 ([] : List StixObject)
      = Except.error (RaisedError.processing
          (ProcessingError.mk "The requested range is outside the size of the result set" 416
            [("Accept-Ranges", "items"), ("Content-Range", "items */5")]))
    ∧ ∃ status headers, get_response_status_and_headers none 100 0 5 ([] : List StixObject)
        = Except.ok (status, headers) := by
  constructor
  · exact ((claim_C5_unsatisfiable_range none 100 7 5 []).1
      ⟨by decide, by decide⟩).trans (by decide)
  · exact (claim_C5_unsatisfiable_range none 100 0 5 []).2 (by
      rintro ⟨h1, h2⟩
      omega)

/-- C6: for an existing collection, the combined permission check returns
404 when both capability flags are false (and in that case never any 403),
a write-denial 403 when only can_write is false, a read-denial 403 when
only can_read is false, and succeeds when both are true. -/
theorem claim_C6_joint_permission_check (cid : String) (r w : Bool) :
    ((r = false ∧ w = false) →
      permission_to_read_and_write cid (some (CollectionInfo.mk r w))
        = Except.error (procErr ("Collection " ++ cid ++ " not found") 404))
    ∧ ((w = false ∧ r = true) →
      permission_to_read_and_write cid (some (CollectionInfo.mk r w))
        = Except.error (procErr ("Forbidden to write collection " ++ cid) 403))
    ∧ ((r = false ∧ w = true) →
      permission_to_read_and_write cid (some (CollectionInfo.mk r w))
        = Except.error (procErr ("Forbidden to read collection " ++ cid) 403))
    ∧ ((r = true ∧ w = true) →
      permission_to_read_and_write cid (some (CollectionInfo.mk r w)) = Except.ok ())
    ∧ ((r = false ∧ w = false) → ∀ (msg : String) (hs : List (String × String)),
      permission_to_read_and_write cid (some (CollectionInfo.mk r w))
        ≠ Except.error (RaisedError.processing (ProcessingError.mk msg 403 hs))) := by
  cases r <;> cases w <;>
    simp [permission_to_read_and_write, procErr]

/-- C6 witness: the four flag combinations at a concrete collection id. -/
theorem claim_C6_joint_permission_check_witness :
    permission_to_read_and_write "c1" (some (CollectionInfo.mk false false))
      = Except.error (procErr "Collection c1 not found" 404)
    ∧ permission_to_read_and_write "c1" (some (CollectionInfo.mk true false))
      = Except.error (procErr "Forbidden to write collection c1" 403)
    ∧ permission_to_read_and_write "c1" (some (CollectionInfo.mk false true))
      = Except.error (procErr "Forbidden to read collection c1" 403)
    ∧ permission_to_read_and_write "c1" (some (CollectionInfo.mk true true)) = Except.ok () := by
  refine ⟨?_, ?_, ?_, ?_⟩
  · exact ((claim_C6_joint_permission_check "c1" false false).1 ⟨rfl, rfl⟩).trans (by decide)
  · exact ((claim_C6_joint_permission_check "c1" true false).2.1 ⟨rfl, rfl⟩).trans (by decide)
  · exact ((claim_C6_joint_permission_check "c1" false true).2.2.1 ⟨rfl, rfl⟩).trans (by decide)
  · exact (claim_C6_joint_permission_check "c1" true true).2.2.2.1 ⟨rfl, rfl⟩

/-- C9: Content-Length validation.  An absent header or one Python int()
cannot parse raises 400; a parsed length that is nonpositive or exceeds the
configured maximum raises 413; otherwise the check returns normally. -/
theorem claim_C9_content_length_validation (maxContentLength : Int) :
    validate_size_in_request_body maxContentLength none
      = Except.error (procErr "The server did not understand the request or headers" 400)
    ∧ (∀ s : String, pyInt? s = none →
      validate_size_in_request_body maxContentLength (some s)
        = Except.error (procErr "The server did not understand the request or headers" 400))
    ∧ (∀ (s : String) (n : Int), pyInt? s = some n → (n ≤ 0 ∨ n > maxContentLength) →
      validate_size_in_request_body maxContentLength (some s)
        = Except.error (procErr "Content-Length header not valid or exceeds maximum!" 413))
    ∧ (∀ (s : String) (n : Int), pyInt? s = some n → 0 < n → n ≤ maxContentLength →
      validate_size_in_request_body maxContentLength (some s) = Except.ok ()) := by
  refine ⟨rfl, ?_, ?_, ?_⟩
  · intro s hm
    unfold validate_size_in_request_body
    simp only [Option.getD_some, hm]
  · intro s n hm hbad
    unfold validate_size_in_request_body
    simp only [Option.getD_some, hm]
    rw [if_pos (hbad.elim Or.inr Or.inl)]
  · intro s n hm h1 h2
    unfold validate_size_in_request_body
    simp only [Option.getD_some, hm]
    rw [if_neg (by
      rintro (h | h) <;> omega)]

/-- C9 witness: each branch at maximum 100 — absent header, header "abc",
header "0", header "10". -/
theorem claim_C9_content_length_validation_witness :
    validate_size_in_request_body 100 none
      = Except.error (procErr "The server did not understand the request or headers" 400)
    ∧ validate_size_in_request_body 100 (some "abc")
      = Except.error (procErr "The server did not understand the request or headers" 400)
    ∧ validate_size_in_request_body 100 (some "0")
      = Except.error (procErr "Content-Length header not valid or exceeds maximum!" 413)
    ∧ validate_size_in_request_body 100 (some "10") = Except.ok () := by
  refine ⟨?_, ?_, ?_, ?_⟩
  · exact (claim_C9_content_length_validation 100).1
  · exact (claim_C9_content_length_validation 100).2.1 "abc" (by decide)
  · exact (claim_C9_content_length_validation 100).2.2.1 "0" 0 (by decide) (Or.inl (by decide))
  · exact (claim_C9_content_length_validation 100).2.2.2 "10" 10 (by decide) (by decide)
      (by decide)

/-- C2: the claim says the nested registration of the single-object route at
the end of get_or_add_objects is reachable for some request method.  It is
not: the route decorator admits only GET and POST, the GET branch always
returns or raises, and the POST branch always returns, so no dispatched
execution of the list view ever reaches the nested definition — the
single-object endpoint is never registered. -/
theorem claim_C2_registration_unreachable (m : Method) (env : ListRequestEnv)
    (r : Except RaisedError ListResult)
    (hd : dispatch_objects_list m env = some r) :
    reachedRegistration r = false := by
  cases m with
  | GET =>
    rw [dispatch_objects_list, if_pos (by decide)] at hd
    injection hd with h
    subst h
    show reachedRegistration (get_or_add_objects Method.GET env) = false
    unfold get_or_add_objects
    cases h2 : list_get_handler env <;> simp [Except.map, reachedRegistration]
  | POST =>
    rw [dispatch_objects_list, if_pos (by decide)] at hd
    injection hd with h
    subst h
    show reachedRegistration (get_or_add_objects Method.POST env) = false
    unfold get_or_add_objects
    cases h2 : list_post_handler env <;> simp [Except.map, reachedRegistration]
  | DELETE =>
    rw [dispatch_objects_list, if_neg (by decide)] at hd
    exact Option.noConfusion hd
  | PUT =>
    rw [dispatch_objects_list, if_neg (by decide)] at hd
    exact Option.noConfusion hd

/-- C2 witness: a concrete well-formed POST dispatch returns the 202
response without reaching the nested registration. -/
theorem claim_C2_registration_unreachable_witness :
    reachedRegistration
      (Except.ok (ListResult.mk (some (ResponseData.mk 202 [])) false)) = false :=
  claim_C2_registration_unreachable Method.POST sampleListEnv
    (Except.ok (ListResult.mk (some (ResponseData.mk 202 [])) false)) (by decide)

/-- C10: permission_to_read and permission_to_write on a missing (None)
collection record fail with the Python TypeError from the subscript, not
with a ProcessingError; and since the single-object GET handler calls
permission_to_read first, with no preceding collection-existence check, a
request for a nonexistent collection ends in that TypeError — the 403/404
ProcessingError branches are unreachable there. -/
theorem claim_C10_missing_collection_type_error :
    (∀ cid : String, permission_to_read cid none = Except.error RaisedError.typeError)
    ∧ (∀ cid : String, permission_to_write cid none = Except.error RaisedError.typeError)
    ∧ (∀ env : SingleRequestEnv, env.collection = none →
      get_or_delete_object Method.GET env = Except.error RaisedError.typeError)
    ∧ (∀ env : SingleRequestEnv, env.collection = none → ∀ e : ProcessingError,
      get_or_delete_object Method.GET env ≠ Except.error (RaisedError.processing e)) := by
  have key : ∀ env : SingleRequestEnv, env.collection = none →
      get_or_delete_object Method.GET env = Except.error RaisedError.typeError := by
    intro env h
    have hs : single_get_handler env = Except.error RaisedError.typeError := by
      unfold single_get_handler
      rw [h]
      rfl
    show (single_get_handler env).map some = Except.error RaisedError.typeError
    rw [hs]
    rfl
  refine ⟨fun _ => rfl, fun _ => rfl, key, ?_⟩
  intro env h e contra
  rw [key env h] at contra
  injection contra with h2
  exact RaisedError.noConfusion h2

/-- C10 witness: the GET handler at a concrete environment with a missing
collection. -/
theorem claim_C10_missing_collection_type_error_witness :
    get_or_delete_object Method.GET sampleSingleEnv = Except.error RaisedError.typeError :=
  claim_C10_missing_collection_type_error.2.2.1 sampleSingleEnv rfl

/-- C8: for a non-empty manifest, the header builder sets the Date-Added
First/Last headers to the minimum/maximum date_added (the head and last of
the ascending sort), the result is invariant under permutation of the
manifest entries, and an empty manifest returns the incoming headers
unchanged. -/
theorem claim_C8_manifest_headers (headers : List (String × String))
    (manifest manifest2 : List ManifestEntry)
    (hne : manifest ≠ []) (hperm : manifest.Perm manifest2) :
    (∃ mn mx,
      getHeader (get_custom_headers headers manifest) "X-TAXII-Date-Added-First"
          = some (toString mn)
        ∧ getHeader (get_custom_headers headers manifest) "X-TAXII-Date-Added-Last"
          = some (toString mx)
        ∧ mn ∈ manifest.map ManifestEntry.date_added
        ∧ mx ∈ manifest.map ManifestEntry.date_added
        ∧ ∀ t ∈ manifest.map ManifestEntry.date_added, mn ≤ t ∧ t ≤ mx)
    ∧ get_custom_headers headers manifest = get_custom_headers headers manifest2
    ∧ get_custom_headers headers [] = headers := by
  obtain ⟨m, ms, rfl⟩ : ∃ m ms, manifest = m :: ms := by
    cases manifest with
    | nil => exact absurd rfl hne
    | cons m ms => exact ⟨m, ms, rfl⟩
  obtain ⟨m2, ms2, rfl⟩ : ∃ m2 ms2, manifest2 = m2 :: ms2 := by
    cases manifest2 with
    | nil => exact absurd hperm.eq_nil (List.cons_ne_nil m ms)
    | cons m2 ms2 => exact ⟨m2, ms2, rfl⟩
  have hdne : (m :: ms).map ManifestEntry.date_added ≠ [] := by simp
  have hsorted := List.sorted_insertionSort (fun a b => a ≤ b)
    ((m :: ms).map ManifestEntry.date_added)
  have hpermSort := List.perm_insertionSort (fun a b => a ≤ b)
    ((m :: ms).map ManifestEntry.date_added)
  obtain ⟨t0, rest, htimes⟩ : ∃ t0 rest,
      List.insertionSort (fun a b => a ≤ b) ((m :: ms).map ManifestEntry.date_added)
        = t0 :: rest := by
    cases hts : List.insertionSort (fun a b => a ≤ b)
        ((m :: ms).map ManifestEntry.date_added) with
    | nil =>
      rw [hts] at hpermSort
      exact absurd hpermSort.symm.eq_nil hdne
    | cons t0 rest => exact ⟨t0, rest, rfl⟩
  rw [htimes] at hsorted hpermSort
  have hgc : get_custom_headers headers (m :: ms) = addTimeHeaders headers (t0 :: rest) := by
    simp only [get_custom_headers]
    rw [htimes]
  have hmem_t0 : t0 ∈ (m :: ms).map ManifestEntry.date_added :=
    hpermSort.subset (List.mem_cons_self t0 rest)
  have hmem_lst : (t0 :: rest).getLast (List.cons_ne_nil t0 rest)
      ∈ (m :: ms).map ManifestEntry.date_added :=
    hpermSort.subset (List.getLast_mem (List.cons_ne_nil t0 rest))
  have hbounds : ∀ t ∈ (m :: ms).map ManifestEntry.date_added,
      t0 ≤ t ∧ t ≤ (t0 :: rest).getLast (List.cons_ne_nil t0 rest) := by
    intro t ht
    have ht2 : t ∈ t0 :: rest := hpermSort.symm.subset ht
    constructor
    · rcases List.mem_cons.mp ht2 with rfl | h3
      · exact le_refl t
      · exact (List.sorted_cons.mp hsorted).1 t h3
    · exact sorted_le_getLast (t0 :: rest) hsorted t ht2 (List.cons_ne_nil t0 rest)
  have hF : getHeader (addTimeHeaders headers (t0 :: rest)) "X-TAXII-Date-Added-First"
      = some (toString t0) := by
    unfold addTimeHeaders
    rw [getHeader_setHeader_ne _ _ _ _ (by decide), getHeader_setHeader_self]
  have hL : getHeader (addTimeHeaders headers (t0 :: rest)) "X-TAXII-Date-Added-Last"
      = some (toString ((t0 :: rest).getLast (List.cons_ne_nil t0 rest))) := by
    unfold addTimeHeaders
    rw [getHeader_setHeader_self]
  have hdperm : ((m :: ms).map ManifestEntry.date_added).Perm
      ((m2 :: ms2).map ManifestEntry.date_added) := hperm.map _
  have heqsort : List.insertionSort (fun a b => a ≤ b)
        ((m :: ms).map ManifestEntry.date_added)
      = List.insertionSort (fun a b => a ≤ b)
        ((m2 :: ms2).map ManifestEntry.date_added) := by
    refine List.eq_of_perm_of_sorted ?_ (List.sorted_insertionSort _ _)
      (List.sorted_insertionSort _ _)
    exact (List.perm_insertionSort _ _).trans
      (hdperm.trans (List.perm_insertionSort _ _).symm)
  have hinv : get_custom_headers headers (m :: ms) = get_custom_headers headers (m2 :: ms2) := by
    simp only [get_custom_headers]
    rw [heqsort]
  refine ⟨⟨t0, (t0 :: rest).getLast (List.cons_ne_nil t0 rest), ?_, ?_,
    hmem_t0, hmem_lst, hbounds⟩, hinv, rfl⟩
  · rw [hgc]
    exact hF
  · rw [hgc]
    exact hL

/-- C8 witness: permutation invariance at the spec's three-entry example,
and the empty-manifest case, both via the theorem. -/
theorem claim_C8_manifest_headers_witness :
    get_custom_headers [("Accept-Ranges", "items")]
        [ManifestEntry.mk "a" 2, ManifestEntry.mk "b" 1, ManifestEntry.mk "c" 3]
      = get_custom_headers [("Accept-Ranges", "items")]
        [ManifestEntry.mk "b" 1, ManifestEntry.mk "c" 3, ManifestEntry.mk "a" 2]
    ∧ get_custom_headers [("Accept-Ranges", "items")] [] = [("Accept-Ranges", "items")] :=
  ⟨(claim_C8_manifest_headers [("Accept-Ranges", "items")]
      [ManifestEntry.mk "a" 2, ManifestEntry.mk "b" 1, ManifestEntry.mk "c" 3]
      [ManifestEntry.mk "b" 1, ManifestEntry.mk "c" 3, ManifestEntry.mk "a" 2]
      (by decide) (by decide)).2.1,
   (claim_C8_manifest_headers [("Accept-Ranges", "items")]
      [ManifestEntry.mk "a" 2] [ManifestEntry.mk "a" 2]
      (by decide) (by decide)).2.2⟩
